import Mathlib

/-!
Shallow embedding of the `nym` pseudonym-system crate (LRSW-style anonymous
credentials) for checking its specification.

Modelling conventions:
* The Ristretto group is a cyclic group of prime order, so it is isomorphic as
  a module over its scalar field to the scalar field itself, with the base
  point `RISTRETTO_BASEPOINT_POINT` mapped to `1`.  We therefore model both
  points and scalars as elements of one commutative ring `F`; scalar
  multiplication of a point becomes ring multiplication, point addition
  becomes ring addition, and the identity point is `0`.  Every group equation
  of the source is preserved verbatim under this mapping.
* The external Merlin transcript primitive is modelled symbolically: each hash
  invocation in the source is translated to the exact data the source feeds
  it — a domain-separation label, the ordered list of labelled committed
  values, and the challenge-extraction mode — packaged as an `FSInput` value,
  to which an arbitrary hash function `H : FSInput F → F` is applied.
  Theorems quantify over `H`; concrete instances evaluate it.
* The channel (`LocalTransport`) is reliable and ordered; an honest two-party
  run is embedded by wiring each `send` directly to the matching `receive`.
  Where a claim is about a single role receiving possibly dishonest peer
  messages, that role is a function of the received values.  All randomness
  (`Scalar::random`) is passed in as explicit parameters.
* `dlog_eq.rs` spells the fields of `Publics` as `g, h, g1, h1`, while
  `nym.rs` and `key.rs` spell the same four positional fields `g1, h1, g2,
  h2`; we use the latter spelling throughout, so `publics.g` of `dlog_eq.rs`
  is `g1` here, `publics.h` is `h1`, `publics.g1` is `g2` and `publics.h1`
  is `h2`.
-/

namespace NymSys

/-- Errors from `src/error.rs`: `BadProof`, `BadSignature`, and a transport
error (which never occurs over the reliable channel model). -/
inductive Error where
  | BadProof
  | BadSignature
  | Transport
deriving DecidableEq, Repr

/-- Decidable equality of `Except` results, used to evaluate protocol
outcomes on concrete inputs. -/
instance instDecEqExcept {ε α : Type} [DecidableEq ε] [DecidableEq α] :
    DecidableEq (Except ε α) := fun x y => by
  cases x <;> cases y
  case error.error e f =>
    exact if h : e = f then isTrue (by rw [h])
      else isFalse (by intro hc; injection hc; contradiction)
  case error.ok e a => exact isFalse (by intro hc; injection hc)
  case ok.error a e => exact isFalse (by intro hc; injection hc)
  case ok.ok a b =>
    exact if h : a = b then isTrue (by rw [h])
      else isFalse (by intro hc; injection hc; contradiction)

/-- Public parameters `dlog_eq::Publics` (spelled `g, h, g1, h1` in
`dlog_eq.rs`, and `g1, h1, g2, h2` at every use site in `nym.rs`/`key.rs`):
the statement "log base `g1` of `h1` equals log base `g2` of `h2`". -/
structure Publics (F : Type) where
  g1 : F
  h1 : F
  g2 : F
  h2 : F
deriving DecidableEq, Repr

/-- Secret parameters `dlog_eq::Secrets`: the claimed common discrete
logarithm. -/
structure Secrets (F : Type) where
  x : F
deriving DecidableEq, Repr

/-- The data the source feeds to one Merlin hash invocation: the transcript
domain label (`merlin::Transcript::new`), the ordered labelled values
committed via `append_value`, and the extraction mode — `some lbl` for
`challenge_bytes(lbl)` + `from_bytes_mod_order` (as in
`non_interactive_challenge_for`), `none` for `Scalar::from_hash(into_digest)`
(as in `blind_dlog_eq::hash`). -/
structure FSInput (F : Type) where
  domain : String
  entries : List (String × F)
  extraction : Option String
deriving DecidableEq, Repr

section DlogEq

variable {F : Type} [CommRing F] [DecidableEq F]

/-- The group generator `curve25519_dalek::constants::RISTRETTO_BASEPOINT_POINT`,
i.e. `1` in the cyclic-group-as-ring model. -/
def RISTRETTO_BASEPOINT_POINT : F := 1

/-- Prover commitment of protocol Π (`dlog_eq::prove`, lines 38-41): sample
`r`, send `a := r * publics.g` and `b := r * publics.g1` — in the unified
field spelling, `a := r·g1` and `b := r·g2`. -/
def dlog_eq.proveCommit (publics : Publics F) (r : F) : F × F :=
  (r * publics.g1, r * publics.g2)

/-- Prover response of protocol Π (`dlog_eq::prove`, line 44):
`y := r + c * secrets.x`. -/
def dlog_eq.proveResponse (secrets : Secrets F) (r c : F) : F :=
  r + c * secrets.x

/-- Verifier decision of protocol Π (`dlog_eq::verify`, lines 56-62):
accept iff `y·g1 = a + c·h1` and `y·g2 = b + c·h2`, else `BadProof`. -/
def dlog_eq.verifyChecks (publics : Publics F) (a b c y : F) : Except Error Unit :=
  if y * publics.g1 = a + c * publics.h1 ∧ y * publics.g2 = b + c * publics.h2 then
    Except.ok ()
  else
    Except.error Error.BadProof

/-- An honest interactive run of protocol Π over the reliable channel:
the prover (`dlog_eq::prove`) with randomness `r` against the verifier
(`dlog_eq::verify`) with challenge randomness `c`; result is the verifier
outcome (the prover side returns `Ok(())` unconditionally once the channel
delivers). -/
def dlog_eq.run (publics : Publics F) (secrets : Secrets F) (r c : F) :
    Except Error Unit :=
  let ab := dlog_eq.proveCommit publics r
  let y := dlog_eq.proveResponse secrets r c
  dlog_eq.verifyChecks publics ab.1 ab.2 c y

/-- The exact Merlin feed of `dlog_eq::non_interactive_challenge_for`
(lines 94-102): domain label `"nym/0.1/dlog-eq-proof/non-interactive-challenge"`,
values committed in order under labels `"g"`, `"h"`, `"g~"`, `"h~"`, `"a"`,
`"b"`, challenge extracted under label `"c"`. -/
def dlog_eq.nonInteractiveChallengeInput (publics : Publics F) (a b : F) :
    FSInput F :=
  { domain := "nym/0.1/dlog-eq-proof/non-interactive-challenge"
    entries := [("g", publics.g1), ("h", publics.h1), ("g~", publics.g2),
                ("h~", publics.h2), ("a", a), ("b", b)]
    extraction := some "c" }

/-- The Fiat–Shamir challenge `dlog_eq::non_interactive_challenge_for`: an
application of the (abstract) Merlin hash `H` to the exact feed above. -/
def dlog_eq.non_interactive_challenge_for (H : FSInput F → F)
    (publics : Publics F) (a b : F) : F :=
  H (dlog_eq.nonInteractiveChallengeInput publics a b)

/-- A Π_NI transcript `(a, b, c, y)`, `dlog_eq::Transcript`. -/
structure Transcript (F : Type) where
  a : F
  b : F
  c : F
  y : F
deriving DecidableEq, Repr

/-- Verification of a Π_NI transcript, `dlog_eq::Transcript::verify`
(lines 76-85): recompute the non-interactive challenge and check it against
`c`, then check the two Π equations; `Ok` iff all three hold, else
`BadProof`. -/
def Transcript.verify (H : FSInput F → F) (t : Transcript F)
    (publics : Publics F) : Except Error Unit :=
  if t.c = dlog_eq.non_interactive_challenge_for H publics t.a t.b ∧
      t.y * publics.g1 = t.a + t.c * publics.h1 ∧
      t.y * publics.g2 = t.b + t.c * publics.h2 then
    Except.ok ()
  else
    Except.error Error.BadProof

end DlogEq

section BlindDlogEq

variable {F : Type} [CommRing F] [DecidableEq F]

/-- Secret parameters of the Γ verifier, `blind_dlog_eq::VerifierSecrets`:
the blinding factor `γ`. -/
structure VerifierSecrets (F : Type) where
  γ : F
deriving DecidableEq, Repr

/-- Prover commitment of protocol Γ (`blind_dlog_eq::prove`, lines 32-36):
sample `r`, send `a := r * publics.g` and `b := r * publics.h` — in the
unified field spelling, `a := r·g1` and `b := r·h1`.  (Note: `r·h1`, where
`dlog_eq::prove` sends `r·g2`.) -/
def blind_dlog_eq.proveCommit (publics : Publics F) (r : F) : F × F :=
  (r * publics.g1, r * publics.h1)

/-- The exact Merlin feed of `blind_dlog_eq::hash` (lines 96-101): domain
label `"blind-dlog-eq-proof/non-interactive-challenge"`, values committed in
order under labels `"a"`, `"b"`, scalar extracted via
`Scalar::from_hash(h.into_digest())` (no challenge label). -/
def blind_dlog_eq.hashInput (a b : F) : FSInput F :=
  { domain := "blind-dlog-eq-proof/non-interactive-challenge"
    entries := [("a", a), ("b", b)]
    extraction := none }

/-- The challenge hash `blind_dlog_eq::hash`: application of the abstract
Merlin hash `H` to the exact feed above; a function of `(a, b)` only. -/
def blind_dlog_eq.hash (H : FSInput F → F) (a b : F) : F :=
  H (blind_dlog_eq.hashInput a b)

/-- The Π_NI transcript emitted by the Γ verifier,
`blind_dlog_eq::DlogEqTranscript`. -/
structure DlogEqTranscript (F : Type) where
  a : F
  b : F
  c : F
  y : F
deriving DecidableEq, Repr

/-- Verification of a Γ-emitted transcript,
`blind_dlog_eq::DlogEqTranscript::verify` (lines 85-93): accept iff
`y·g1 = a + c·h1` and `y·g2 = b + c·h2`, else `BadProof` — no challenge
recomputation. -/
def DlogEqTranscript.verify (t : DlogEqTranscript F) (publics : Publics F) :
    Except Error Unit :=
  if t.y * publics.g1 = t.a + t.c * publics.h1 ∧
      t.y * publics.g2 = t.b + t.c * publics.h2 then
    Except.ok ()
  else
    Except.error Error.BadProof

/-- The blinded commitment pair the Γ verifier derives from the received
`(a, b)` (`blind_dlog_eq::verify`, lines 54-55):
`a1 := a + α·g1 + β·h1` and `b1 := γ·(b + α·g2 + β·h2)`. -/
def blind_dlog_eq.blindedPair (publics : Publics F) (secrets : VerifierSecrets F)
    (α β a b : F) : F × F :=
  (a + α * publics.g1 + β * publics.h1,
   secrets.γ * (b + α * publics.g2 + β * publics.h2))

/-- The challenge-minus-β value the Γ verifier computes
(`blind_dlog_eq::verify`, line 56): `hash(a1, b1)`. -/
def blind_dlog_eq.verifierChallenge (H : FSInput F → F) (publics : Publics F)
    (secrets : VerifierSecrets F) (α β a b : F) : F :=
  let p := blind_dlog_eq.blindedPair publics secrets α β a b
  blind_dlog_eq.hash H p.1 p.2

/-- Verifier decision of Γ (`blind_dlog_eq::verify`, lines 49-72) as a function
of the received prover messages `(a, b, y)` and of the verifier randomness
`(α, β)`: compute `(a1, b1)`, `c := hash(a1, b1) + β`, check the two original
Π equations against the received `y`, and on success emit the transcript
`(a1, b1, c − β, y + α)`. -/
def blind_dlog_eq.verifyStep (H : FSInput F → F) (publics : Publics F)
    (secrets : VerifierSecrets F) (α β a b y : F) :
    Except Error (DlogEqTranscript F) :=
  let p := blind_dlog_eq.blindedPair publics secrets α β a b
  let c_minus_β := blind_dlog_eq.hash H p.1 p.2
  let c := c_minus_β + β
  if y * publics.g1 = a + c * publics.h1 ∧ y * publics.g2 = b + c * publics.h2 then
    Except.ok { a := p.1, b := p.2, c := c_minus_β, y := y + α }
  else
    Except.error Error.BadProof

/-- An honest interactive run of protocol Γ: `blind_dlog_eq::prove` with
randomness `r` wired to `blind_dlog_eq::verify` with randomness `(α, β)` and
blinding `γ`; the prover answers the challenge `c` with
`y := r + c * secrets.x` (lines 37-39). -/
def blind_dlog_eq.run (H : FSInput F → F) (publics : Publics F)
    (secrets : Secrets F) (vsecrets : VerifierSecrets F) (r α β : F) :
    Except Error (DlogEqTranscript F) :=
  let ab := blind_dlog_eq.proveCommit publics r
  let c := blind_dlog_eq.verifierChallenge H publics vsecrets α β ab.1 ab.2 + β
  let y := r + c * secrets.x
  blind_dlog_eq.verifyStep H publics vsecrets α β ab.1 ab.2 y

end BlindDlogEq

section NymProtocols

variable {F : Type} [CommRing F] [DecidableEq F]

/-- A pseudonym `nym::Nym`: a pair of points `(a, b)`. -/
structure Nym (F : Type) where
  a : F
  b : F
deriving DecidableEq, Repr

/-- A credential `nym::Cred`: points `(a, b, A, B)` with two Π_NI transcripts.
`nym.rs` declares `T1 T2 : dlog_eq::Transcript`; the Γ verifier emits a
`blind_dlog_eq::DlogEqTranscript`, a structure with the identical four
fields, which the user stores field-for-field. -/
structure Cred (F : Type) where
  a : F
  b : F
  A : F
  B : F
  T1 : Transcript F
  T2 : Transcript F
deriving DecidableEq, Repr

/-- Field-for-field repackaging of the Γ-emitted transcript into the
`dlog_eq::Transcript` stored inside a `Cred`. -/
def DlogEqTranscript.toTranscript (t : DlogEqTranscript F) : Transcript F :=
  { a := t.a, b := t.b, c := t.c, y := t.y }

/-- `Org::generate_nym` (`nym.rs` lines 103-121) as a function of the
received peer messages: receive `(a~, b~)`, compute `a := r·a~` (no validity
check on `a~`), send `a`, receive `b`, then run `dlog_eq::verify` on publics
`(a, b, a~, b~)` against the peer Π messages `(aπ, bπ, y)` with challenge
`cπ`; on success output `Nym (a, b)`. -/
def Org.generate_nym (r : F) (a_ b_ b : F) (aπ bπ : F) (cπ y : F) :
    Except Error (Nym F) :=
  let a := r * a_
  match dlog_eq.verifyChecks { g1 := a, h1 := b, g2 := a_, h2 := b_ } aπ bπ cπ y with
  | Except.error e => Except.error e
  | Except.ok _ => Except.ok { a := a, b := b }

/-- `Org::generate_nym_as_ca` (`nym.rs` lines 124-152) as a function of the
received peer messages, additionally recording every message the CA sends,
in order.  After receiving `(a~, b~)` it first checks `a~ =
RISTRETTO_BASEPOINT_POINT` and `b~ = user_key.point()`, returning `BadProof`
before any send on failure; otherwise it proceeds exactly as
`Org::generate_nym` (sending `a`, and `c` inside `dlog_eq::verify`). -/
def Org.generate_nym_as_ca (user_key : F) (r : F) (a_ b_ b : F)
    (aπ bπ : F) (cπ y : F) : List (String × F) × Except Error (Nym F) :=
  if a_ ≠ (RISTRETTO_BASEPOINT_POINT : F) then
    ([], Except.error Error.BadProof)
  else if b_ ≠ user_key then
    ([], Except.error Error.BadProof)
  else
    let a := r * a_
    (("a", a) :: ("c", cπ) :: [],
      match dlog_eq.verifyChecks { g1 := a, h1 := b, g2 := a_, h2 := b_ }
          aπ bπ cπ y with
      | Except.error e => Except.error e
      | Except.ok _ => Except.ok { a := a, b := b })

/-- The honest composition of `User::generate_nym` (`nym.rs` lines 157-196)
with `Org::generate_nym` (lines 103-121) over the reliable channel.  The
user samples `γ` and sends `a~ := γ·G`, `b~ := x·a~`; the org samples `r`
and replies `a := r·a~`; the user sends `b := x·a` and proves, with
randomness `rπ` against the org verifier challenge `cπ`, the statement
`(a, b, a~, b~)` with witness `x`.  Result: the pair (user output, org
output). -/
def run_generate_nym (x γ r rπ cπ : F) : Except Error (Nym F × Nym F) :=
  let a_ := γ * (RISTRETTO_BASEPOINT_POINT : F)
  let b_ := x * a_
  let a := r * a_
  let b := x * a
  match dlog_eq.run { g1 := a, h1 := b, g2 := a_, h2 := b_ } { x := x } rπ cπ with
  | Except.error e => Except.error e
  | Except.ok _ => Except.ok ({ a := a, b := b }, { a := a, b := b })

/-- The honest composition of `Org::issue_credential` (`nym.rs` lines
239-272) with `User::issue_credential` (lines 278-317) over the reliable
channel, for an org with secret key `(x1, x2)` (public points `Y1 := x1·G`,
`Y2 := x2·G`, which the user is honestly given as `source_key`).  The org
computes `A := x2·b` and `B := x1·(a + x2·b)`, sends them, then runs the Γ
prover twice (randomness `r1`, `r2`) against the user Γ verifier (randomness
`(α1, β1)`, `(α2, β2)`, the same fresh `γ` both times) on statements
`(G, Y2, nym.b, A)` and `(G, Y1, nym.a + A, B)`; on success the user outputs
`Cred (nym.a·γ, nym.b·γ, A·γ, B·γ, T1, T2)`. -/
def run_issue_credential (H : FSInput F → F) (x1 x2 γ : F) (nym : Nym F)
    (r1 α1 β1 r2 α2 β2 : F) : Except Error (Cred F) :=
  let A := x2 * nym.b
  let B := x1 * (nym.a + x2 * nym.b)
  match blind_dlog_eq.run H
      { g1 := RISTRETTO_BASEPOINT_POINT, h1 := x2 * RISTRETTO_BASEPOINT_POINT,
        g2 := nym.b, h2 := A }
      { x := x2 } { γ := γ } r1 α1 β1 with
  | Except.error e => Except.error e
  | Except.ok T1 =>
    match blind_dlog_eq.run H
        { g1 := RISTRETTO_BASEPOINT_POINT, h1 := x1 * RISTRETTO_BASEPOINT_POINT,
          g2 := nym.a + A, h2 := B }
        { x := x1 } { γ := γ } r2 α2 β2 with
    | Except.error e => Except.error e
    | Except.ok T2 =>
      Except.ok { a := nym.a * γ, b := nym.b * γ, A := A * γ, B := B * γ,
                  T1 := T1.toTranscript, T2 := T2.toTranscript }

/-- The honest composition of `Org::transfer_credential` (`nym.rs` lines
322-352) with `User::transfer_credential` (lines 357-377) over the reliable
channel, for a source org public key `(srcY1, srcY2)`.  The destination org
verifies `cred.T1` under `(G, srcY2, cred.b, cred.A)` and `cred.T2` under
`(G, srcY1, cred.a + cred.A, cred.B)`, then runs `dlog_eq::verify` on
`(nym.a, nym.b, cred.a, cred.b)` against the user prover with witness `x`
and randomness `rπ`, challenge `cπ`. -/
def run_transfer_credential (H : FSInput F → F) (x : F) (nym : Nym F)
    (cred : Cred F) (srcY1 srcY2 : F) (rπ cπ : F) : Except Error Unit :=
  match cred.T1.verify H
      { g1 := RISTRETTO_BASEPOINT_POINT, h1 := srcY2, g2 := cred.b, h2 := cred.A } with
  | Except.error e => Except.error e
  | Except.ok _ =>
    match cred.T2.verify H
        { g1 := RISTRETTO_BASEPOINT_POINT, h1 := srcY1,
          g2 := cred.a + cred.A, h2 := cred.B } with
    | Except.error e => Except.error e
    | Except.ok _ =>
      dlog_eq.run { g1 := nym.a, h1 := nym.b, g2 := cred.a, h2 := cred.b }
        { x := x } rπ cπ

end NymProtocols

section ConcreteInstances

/-- A concrete instantiation of the abstract Merlin hash over `ZMod 11` that
distinguishes the two domain-separation labels occurring in the source: it
returns `1` on the `dlog_eq` non-interactive-challenge domain and `0` on
every other feed (in particular on the `blind_dlog_eq` domain).  Any hash
whose outputs on the two domains differ exhibits the same behaviour; the
real Merlin construction domain-separates precisely by this label. -/
def credTransferHash : FSInput (ZMod 11) → ZMod 11 := fun inp =>
  if inp.domain = "nym/0.1/dlog-eq-proof/non-interactive-challenge" then 1 else 0

/-- The credential produced by the honest issuance run over `ZMod 11` with
user master secret `2`, org secret key `(3, 4)`, nym `(1, 2)`, user blinding
`γ = 5`, org Γ randomness `r = 0` in both sub-proofs and user Γ randomness
`α = β = 1`, under `credTransferHash`. -/
def credC1 : Cred (ZMod 11) :=
  { a := 5, b := 10, A := 7, B := 3,
    T1 := { a := 5, b := 6, c := 0, y := 5 },
    T2 := { a := 4, b := 4, c := 0, y := 4 } }

/-- The credential produced by the same honest issuance run as `credC1` but
under the constant-zero hash. -/
def credC4 : Cred (ZMod 11) :=
  { a := 5, b := 10, A := 7, B := 3,
    T1 := { a := 5, b := 6, c := 0, y := 5 },
    T2 := { a := 4, b := 4, c := 0, y := 4 } }

end ConcreteInstances

section Theorems

/-- C5: Π completeness — for all bases `(g1, g2)` and witness `x`, with
`h1 := x·g1` and `h2 := x·g2`, an honest run of `dlog_eq::prove` against
`dlog_eq::verify` over the reliable channel returns `Ok` for every prover
randomness `r` and every verifier challenge `c`. -/
theorem dlog_eq_completeness {F : Type} [CommRing F] [DecidableEq F]
    (g1 g2 x r c : F) :
    dlog_eq.run { g1 := g1, h1 := x * g1, g2 := g2, h2 := x * g2 }
      { x := x } r c = Except.ok () := by
  unfold dlog_eq.run dlog_eq.proveCommit dlog_eq.proveResponse dlog_eq.verifyChecks
  rw [if_pos]
  exact ⟨by ring, by ring⟩

/-- C5 witness: the completeness theorem evaluated at a concrete input. -/
theorem dlog_eq_completeness_witness :
    dlog_eq.run (F := ZMod 11) { g1 := 1, h1 := 2 * 1, g2 := 3, h2 := 2 * 3 }
      { x := 2 } 4 7 = Except.ok () :=
  dlog_eq_completeness 1 3 2 4 7

/-- C6: Π_NI transcript verification — for every transcript `(a, b, c, y)`
and publics, `Transcript::verify` returns `Ok` if and only if the recomputed
challenge equals the stored `c` and both group equations hold; in every
other case it returns `BadProof`. -/
theorem transcript_verify_characterization {F : Type} [CommRing F] [DecidableEq F]
    (H : FSInput F → F) (publics : Publics F) (t : Transcript F) :
    (t.verify H publics = Except.ok () ↔
      (t.c = dlog_eq.non_interactive_challenge_for H publics t.a t.b ∧
        t.y * publics.g1 = t.a + t.c * publics.h1 ∧
        t.y * publics.g2 = t.b + t.c * publics.h2)) ∧
    (t.verify H publics = Except.ok () ∨
      t.verify H publics = Except.error Error.BadProof) := by
  unfold Transcript.verify
  split
  next h => exact ⟨⟨fun _ => h, fun _ => rfl⟩, Or.inl rfl⟩
  next h => exact ⟨⟨fun hc => absurd hc (by simp), fun hc => absurd hc h⟩, Or.inr rfl⟩

/-- C6 witness: the characterization evaluated at a concrete transcript. -/
theorem transcript_verify_characterization_witness :
    ((({ a := 0, b := 0, c := 0, y := 0 } : Transcript (ZMod 11)).verify
        (fun _ => 0) { g1 := 1, h1 := 2, g2 := 3, h2 := 4 } = Except.ok ()) ↔
      ((0 : ZMod 11) = dlog_eq.non_interactive_challenge_for (fun _ => 0)
          { g1 := 1, h1 := 2, g2 := 3, h2 := 4 } 0 0 ∧
        (0 : ZMod 11) * 1 = 0 + 0 * 2 ∧ (0 : ZMod 11) * 3 = 0 + 0 * 4)) ∧
    ((({ a := 0, b := 0, c := 0, y := 0 } : Transcript (ZMod 11)).verify
        (fun _ => 0) { g1 := 1, h1 := 2, g2 := 3, h2 := 4 } = Except.ok ()) ∨
      (({ a := 0, b := 0, c := 0, y := 0 } : Transcript (ZMod 11)).verify
        (fun _ => 0) { g1 := 1, h1 := 2, g2 := 3, h2 := 4 } =
          Except.error Error.BadProof)) :=
  transcript_verify_characterization (F := ZMod 11) (fun _ => 0)
    { g1 := 1, h1 := 2, g2 := 3, h2 := 4 } { a := 0, b := 0, c := 0, y := 0 }

/-- C3 counterexample: the per-field commit labels actually used by
`non_interactive_challenge_for` are not `g1, h1, g2, h2, a, b` as claimed. -/
theorem ni_challenge_label_mismatch :
    (dlog_eq.nonInteractiveChallengeInput (F := ZMod 11)
        { g1 := 0, h1 := 0, g2 := 0, h2 := 0 } 0 0).entries.map Prod.fst ≠
      ["g1", "h1", "g2", "h2", "a", "b"] := by
  decide

/-- C3 (amended): the non-interactive challenge is computed by creating a
transcript with the exact label
`nym/0.1/dlog-eq-proof/non-interactive-challenge`, committing the six values
in the fixed order `(g1, h1, g2, h2, a, b)` under the per-field labels `g`,
`h`, `g~`, `h~`, `a`, `b` respectively, and extracting a scalar under label
`c`; it is a deterministic pure function of the publics and `(a, b)`. -/
theorem ni_challenge_structure {F : Type} [CommRing F] [DecidableEq F]
    (H : FSInput F → F) (p q : Publics F) (a b a' b' : F) :
    dlog_eq.non_interactive_challenge_for H p a b =
      H { domain := "nym/0.1/dlog-eq-proof/non-interactive-challenge",
          entries := [("g", p.g1), ("h", p.h1), ("g~", p.g2), ("h~", p.h2),
                      ("a", a), ("b", b)],
          extraction := some "c" } ∧
    (p = q → a = a' → b = b' →
      dlog_eq.non_interactive_challenge_for H p a b =
        dlog_eq.non_interactive_challenge_for H q a' b') := by
  refine ⟨rfl, ?_⟩
  rintro rfl rfl rfl
  rfl

/-- C3 witness: two derivations of the challenge from equal inputs
coincide, at a concrete input. -/
theorem ni_challenge_structure_witness :
    dlog_eq.non_interactive_challenge_for (F := ZMod 11) (fun _ => 1)
        { g1 := 1, h1 := 2, g2 := 3, h2 := 4 } 5 6 =
      dlog_eq.non_interactive_challenge_for (fun _ => 1)
        { g1 := 1, h1 := 2, g2 := 3, h2 := 4 } 5 6 :=
  (ni_challenge_structure (F := ZMod 11) (fun _ => 1)
      { g1 := 1, h1 := 2, g2 := 3, h2 := 4 }
      { g1 := 1, h1 := 2, g2 := 3, h2 := 4 } 5 6 5 6).2 rfl rfl rfl

/-- C2: contrary to the claim, the Γ prover first move differs from the Π
prover first move — `blind_dlog_eq::prove` sends `b := r·h1` where
`dlog_eq::prove` sends `b := r·g2` — and on an honest statement
(`h1 = x·g1`, `h2 = x·g2` with `h1 ≠ g2`) the honest Γ prover/verifier pair
fails the check `y·g2 = b + c·h2` and returns `BadProof`. -/
theorem blind_prove_first_move_deviates :
    blind_dlog_eq.proveCommit (F := ZMod 11) { g1 := 1, h1 := 2, g2 := 3, h2 := 6 } 1 ≠
      dlog_eq.proveCommit { g1 := 1, h1 := 2, g2 := 3, h2 := 6 } 1 ∧
    blind_dlog_eq.run (F := ZMod 11) (fun _ => 0) { g1 := 1, h1 := 2, g2 := 3, h2 := 6 }
        { x := 2 } { γ := 1 } 1 0 0 = Except.error Error.BadProof := by
  decide

/-- C1: contrary to the claim, an honestly issued credential is rejected by
the destination org.  Over `ZMod 11` with user master secret `2`, issuing
org secret key `(3, 4)`, source nym `(1, 2)`, destination nym `(3, 6)` and
user blinding `γ = 5`, under any hash separating the two domain labels
(here `credTransferHash`): the honest issuance with org Γ randomness `0`
succeeds and returns `credC1`, but `Org::transfer_credential` on `credC1`
returns `BadProof` (the challenge stored by Γ was computed under the
`blind-dlog-eq-proof` domain from `(a, b)` alone, so the `nym/0.1` domain
recomputation in `Transcript::verify` disagrees); moreover with nonzero org
Γ randomness the honest issuance itself already returns `BadProof` (the
`b := r·h1` first move breaks the check `y·g2 = b + c·h2`). -/
theorem transfer_credential_rejects_honest_cred :
    run_issue_credential credTransferHash 3 4 5 { a := 1, b := 2 } 0 1 1 0 1 1 =
        Except.ok credC1 ∧
    run_transfer_credential credTransferHash 2 { a := 3, b := 6 } credC1 3 4 1 1 =
        Except.error Error.BadProof ∧
    run_issue_credential credTransferHash 3 4 5 { a := 1, b := 2 } 1 0 0 1 0 0 =
        Except.error Error.BadProof := by
  decide

/-- C4: whenever the honest issuance composition returns a credential to a
user whose nym satisfies `b = x·a`, that credential satisfies
`cred.b = x·cred.a`, `cred.A = x2·cred.b` and `cred.B = x1·(cred.a + cred.A)`,
and its four group elements are the single fresh `γ` times the nym pair and
the received `A`, `B`. -/
theorem issue_credential_cred_relations {F : Type} [CommRing F] [DecidableEq F]
    (H : FSInput F → F) (x x1 x2 γ aN : F) (r1 α1 β1 r2 α2 β2 : F) (cred : Cred F)
    (h : run_issue_credential H x1 x2 γ { a := aN, b := x * aN } r1 α1 β1 r2 α2 β2 =
      Except.ok cred) :
    cred.b = x * cred.a ∧ cred.A = x2 * cred.b ∧ cred.B = x1 * (cred.a + cred.A) ∧
    cred.a = aN * γ ∧ cred.b = (x * aN) * γ ∧
    cred.A = (x2 * (x * aN)) * γ ∧ cred.B = (x1 * (aN + x2 * (x * aN))) * γ := by
  unfold run_issue_credential at h
  dsimp only at h
  split at h
  · exact absurd h (by simp)
  · split at h
    · exact absurd h (by simp)
    · injection h with h
      subst h
      refine ⟨by ring, by ring, by ring, by ring, by ring, by ring, by ring⟩

/-- C4 witness: the relations evaluated on the concrete credential produced
by the honest issuance run behind `credC4`. -/
theorem issue_credential_cred_relations_witness :
    credC4.b = 2 * credC4.a ∧ credC4.A = 4 * credC4.b ∧
    credC4.B = 3 * (credC4.a + credC4.A) ∧ credC4.a = 1 * 5 ∧
    credC4.b = (2 * 1) * 5 ∧ credC4.A = (4 * (2 * 1)) * 5 ∧
    credC4.B = (3 * (1 + 4 * (2 * 1))) * 5 :=
  issue_credential_cred_relations (F := ZMod 11) (fun _ => 0) 2 3 4 5 1 0 1 1 0 1 1
    credC4 (by decide)

/-- C7: nym validity — after an honest run of `User::generate_nym` against
`Org::generate_nym`, both parties output the same pair `(a, b)` and `b`
equals the user master secret `x` times `a`. -/
theorem generate_nym_validity {F : Type} [CommRing F] [DecidableEq F]
    (x γ r rπ cπ : F) :
    ∃ n : Nym F, run_generate_nym x γ r rπ cπ = Except.ok (n, n) ∧ n.b = x * n.a := by
  refine ⟨{ a := r * (γ * RISTRETTO_BASEPOINT_POINT),
            b := x * (r * (γ * RISTRETTO_BASEPOINT_POINT)) }, ?_, rfl⟩
  have hrun : dlog_eq.run
      { g1 := r * (γ * RISTRETTO_BASEPOINT_POINT),
        h1 := x * (r * (γ * RISTRETTO_BASEPOINT_POINT)),
        g2 := γ * RISTRETTO_BASEPOINT_POINT,
        h2 := x * (γ * RISTRETTO_BASEPOINT_POINT) } { x := x } rπ cπ =
      Except.ok () := by
    unfold dlog_eq.run dlog_eq.proveCommit dlog_eq.proveResponse dlog_eq.verifyChecks
    rw [if_pos]
    exact ⟨by ring, by ring⟩
  unfold run_generate_nym
  dsimp only
  rw [hrun]

/-- C7 witness: the validity theorem evaluated at a concrete input. -/
theorem generate_nym_validity_witness :
    ∃ n : Nym (ZMod 11), run_generate_nym 2 3 4 5 6 = Except.ok (n, n) ∧
      n.b = 2 * n.a :=
  generate_nym_validity 2 3 4 5 6

/-- C8: CA-mode gating — for every received pair `(a~, b~)`, whenever
`a~` is not the group generator or `b~` is not the claimed user public key
point, `Org::generate_nym_as_ca` returns `BadProof` having sent no message
of its own. -/
theorem generate_nym_as_ca_gating {F : Type} [CommRing F] [DecidableEq F]
    (user_key r a_ b_ b aπ bπ cπ y : F)
    (h : a_ ≠ (RISTRETTO_BASEPOINT_POINT : F) ∨ b_ ≠ user_key) :
    Org.generate_nym_as_ca user_key r a_ b_ b aπ bπ cπ y =
      ([], Except.error Error.BadProof) := by
  unfold Org.generate_nym_as_ca
  rcases h with h | h
  · rw [if_pos h]
  · by_cases h1 : a_ ≠ (RISTRETTO_BASEPOINT_POINT : F)
    · rw [if_pos h1]
    · rw [if_neg h1, if_pos h]

/-- C8 witness: the gating theorem evaluated at a concrete rejected seed. -/
theorem generate_nym_as_ca_gating_witness :
    Org.generate_nym_as_ca (F := ZMod 11) 7 1 2 7 0 0 0 1 0 =
      ([], Except.error Error.BadProof) :=
  generate_nym_as_ca_gating 7 1 2 7 0 0 0 1 0 (Or.inl (by decide))

/-- C9: `Org::generate_nym` performs no validity check on the received seed
point `a~` — with `a~` the identity (first run, `r = 1`) or with the org
randomness `r = 0` on a well-formed seed (second run), it returns `Ok` with
a `Nym` whose `a` component is the identity point, against the data-model
invariant that a nym `a` is never the identity. -/
theorem generate_nym_accepts_identity_seed :
    Org.generate_nym (F := ZMod 11) 1 0 0 0 0 0 1 0 =
        Except.ok { a := 0, b := 0 } ∧
    Org.generate_nym (F := ZMod 11) 0 1 2 0 0 9 1 0 =
        Except.ok { a := 0, b := 0 } ∧
    ({ a := 0, b := 0 } : Nym (ZMod 11)).a = 0 := by
  decide

/-- C10: `blind_dlog_eq::DlogEqTranscript::verify` accepts exactly the
tuples satisfying the two group equations, with no challenge recomputation
(its decision does not depend on any hash), and the challenge computed
during blinded verification is a function of the blinded pair `(a1, b1)`
alone: two runs, even over different statements and verifier secrets, that
share the blinded pair receive the identical challenge. -/
theorem blind_transcript_verify_characterization {F : Type} [CommRing F]
    [DecidableEq F] (H : FSInput F → F) (t : DlogEqTranscript F)
    (p q : Publics F) (v w : VerifierSecrets F) (α β a b α' β' a' b' : F) :
    (t.verify p = Except.ok () ↔
      (t.y * p.g1 = t.a + t.c * p.h1 ∧ t.y * p.g2 = t.b + t.c * p.h2)) ∧
    (blind_dlog_eq.blindedPair p v α β a b =
        blind_dlog_eq.blindedPair q w α' β' a' b' →
      blind_dlog_eq.verifierChallenge H p v α β a b =
        blind_dlog_eq.verifierChallenge H q w α' β' a' b') := by
  constructor
  · unfold DlogEqTranscript.verify
    split
    next h => exact ⟨fun _ => h, fun _ => rfl⟩
    next h => exact ⟨fun hc => absurd hc (by simp), fun hc => absurd hc h⟩
  · intro h
    unfold blind_dlog_eq.verifierChallenge
    rw [h]

/-- C10 witness: two blinded runs sharing the blinded pair get the same
challenge, at a concrete input. -/
theorem blind_transcript_verify_characterization_witness :
    blind_dlog_eq.verifierChallenge (F := ZMod 11) (fun _ => 0)
        { g1 := 1, h1 := 2, g2 := 3, h2 := 4 } { γ := 5 } 1 1 1 1 =
      blind_dlog_eq.verifierChallenge (F := ZMod 11) (fun _ => 0)
        { g1 := 1, h1 := 2, g2 := 3, h2 := 4 } { γ := 5 } 1 1 1 1 :=
  (blind_transcript_verify_characterization (F := ZMod 11) (fun _ => 0)
      { a := 0, b := 0, c := 0, y := 0 } { g1 := 1, h1 := 2, g2 := 3, h2 := 4 }
      { g1 := 1, h1 := 2, g2 := 3, h2 := 4 } { γ := 5 } { γ := 5 }
      1 1 1 1 1 1 1 1).2 rfl

end Theorems

end NymSys
